import Mathlib

/-!
Shallow embedding of the Writely prototype
(`src/writely_student_tutor_platform_react_single_file_starter.jsx`).

The mock database lives in localStorage as
`{ users, tasks, bids, payments }` (seeded at line 55); every operation
reads the whole store with `getDB()`, mutates it, and writes it back with
`saveDB` in one step.  We model the store as a pure `DB` record and each
mutating UI handler as a pure function `DB → … → DB` (the JS `Date.now()`
timestamp becomes an explicit `now : Nat` argument).  A handler that would
throw before reaching `saveDB` (e.g. `find` returning `undefined` followed
by a property write) leaves the persisted store unchanged, so it is
modelled as the identity on `DB`.
-/

namespace Writely

/-- Roles issued at registration (line 81): `'student'` or `'tutor'`. -/
inductive Role where
  | student
  | tutor
deriving DecidableEq

/-- The authenticated user held in the auth context (lines 84, 92):
`{ id, name, email, role }`.  The email plays no part in the claims. -/
structure Principal where
  id : String
  name : String
  role : Role
deriving DecidableEq

/-- A bid record as built by `BidForm.submitBid` (line 357):
`{ id, taskId, tutorId, tutorName, amount, message, createdAt }`.
The JS amount is `Number(amount)`; the claims only compare it with 0,
so we model it as an integer. -/
structure Bid where
  id : String
  taskId : String
  tutorId : String
  tutorName : String
  amount : Int
  message : String
  createdAt : Nat
deriving DecidableEq

/-- A task record as built by `PostTaskCard.submit` (line 409), plus the
`acceptedBid` field that `AcceptBidUI.accept` assigns later (line 381).
The source stores the whole accepted bid object, not just its id. -/
structure Task where
  id : String
  title : String
  description : String
  studentId : String
  studentName : String
  dueDate : String
  budget : String
  acceptedBid : Option Bid := none
deriving DecidableEq

/-- The id of the accepted bid, when one was stored (the spec speaks of
`task.acceptedBidId`; the source keeps the whole bid at line 381). -/
def Task.acceptedBidId (t : Task) : Option String :=
  t.acceptedBid.map Bid.id

/-- A payment record as built by `AcceptBidUI.accept` (line 382):
`{ id, taskId, amount, studentPaid, createdAt }`, with `paidAt` assigned
later by `PaymentsPage.pay` (line 466).  `studentPaid` is the spec's
`paid` flag. -/
structure Payment where
  id : String
  taskId : String
  amount : Int
  studentPaid : Bool
  createdAt : Nat
  paidAt : Option Nat := none
deriving DecidableEq

/-- The whole mock store (seed at line 55:
`{ users: [], tasks: [], bids: [], payments: [] }`). -/
structure DB where
  users : List Principal
  tasks : List Task
  bids : List Bid
  payments : List Payment
deriving DecidableEq

/-- The seeded empty store (line 55). -/
def emptyDB : DB :=
  { users := [], tasks := [], bids := [], payments := [] }

/-- Embeds `PostTaskCard.submit` (lines 406-413).  The handler aborts with
an alert when `!user || user.role !== 'student'`; otherwise it pushes
`{ id: 't_' + Date.now(), title, description, studentId, studentName,
dueDate, budget }` onto `db.tasks` and saves.  Returns the new store and
the created task (`none` on the abort path). -/
def PostTaskCard.submit (db : DB) (user : Option Principal)
    (title description dueDate budget : String) (now : Nat) :
    DB × Option Task :=
  match user with
  | none => (db, none)
  | some u =>
    if u.role = Role.student then
      let task : Task :=
        { id := "t_" ++ Nat.repr now, title := title, description := description,
          studentId := u.id, studentName := u.name, dueDate := dueDate,
          budget := budget }
      ({ db with tasks := db.tasks ++ [task] }, some task)
    else (db, none)

/-- Embeds `BidForm.submitBid` (lines 354-361).  The only guard is
`if (!user)` (alert `'Please login as a tutor to bid'`); any logged-in
user, whatever the role, gets `{ id: 'b_' + Date.now(), taskId, tutorId,
tutorName, amount, message, createdAt }` pushed onto `db.bids`.  There is
no amount validation. -/
def BidForm.submitBid (db : DB) (user : Option Principal) (taskId : String)
    (amount : Int) (message : String) (now : Nat) : DB × Option Bid :=
  match user with
  | none => (db, none)
  | some u =>
    let bid : Bid :=
      { id := "b_" ++ Nat.repr now, taskId := taskId, tutorId := u.id,
        tutorName := u.name, amount := amount, message := message,
        createdAt := now }
    ({ db with bids := db.bids ++ [bid] }, some bid)

/-- Embeds the render guard of line 328:
`user && user.role === 'tutor' && <BidForm task={task} />`.  The bid form
is only mounted for a logged-in tutor; this is the only role gating on the
bid-submission path. -/
def TaskCard.bidFormRendered (user : Option Principal) : Bool :=
  match user with
  | none => false
  | some u =>
    match u.role with
    | Role.tutor => true
    | Role.student => false

/-- Assign the accepted bid on the first task whose id matches, the way
`db2.tasks.find(t => t.id === task.id)` followed by `t.acceptedBid = bid`
mutates exactly the first matching element (lines 380-381). -/
def acceptSetBid : List Task → String → Bid → List Task
  | [], _, _ => []
  | t :: ts, tid, b =>
    if t.id = tid then { t with acceptedBid := some b } :: ts
    else t :: acceptSetBid ts tid b

/-- Embeds `AcceptBidUI.accept` (lines 377-385).  It looks up the task,
assigns `t.acceptedBid = bid` (unconditionally: there is no check that a
bid was already accepted), pushes a fresh payment
`{ id: 'p_' + Date.now(), taskId, amount: bid.amount, studentPaid: false,
createdAt }` and saves — one `saveDB`, so the two writes land together.
If the task id does not resolve, the property write on `undefined` throws
before `saveDB`, leaving the store unchanged. -/
def AcceptBidUI.accept (db : DB) (taskId : String) (bid : Bid) (now : Nat) :
    DB :=
  match db.tasks.find? (fun t => t.id = taskId) with
  | none => db
  | some _ =>
    { db with
      tasks := acceptSetBid db.tasks taskId bid,
      payments := db.payments ++
        [{ id := "p_" ++ Nat.repr now, taskId := taskId, amount := bid.amount,
           studentPaid := false, createdAt := now }] }

/-- Mark the first payment whose id matches as paid, the way
`db.payments.find(x => x.id === payment.id)` followed by
`p.studentPaid = true; p.paidAt = Date.now()` mutates exactly the first
matching element (lines 465-466). -/
def payMark : List Payment → String → Nat → List Payment
  | [], _, _ => []
  | p :: ps, pid, now =>
    if p.id = pid then { p with studentPaid := true, paidAt := some now } :: ps
    else p :: payMark ps pid now

/-- Embeds `PaymentsPage.pay` (lines 462-469).  It sets
`p.studentPaid = true; p.paidAt = Date.now()` unconditionally — there is
no check of the current `studentPaid` value, so an already-paid payment is
silently re-marked and its `paidAt` overwritten.  A missing payment id
throws before `saveDB`, leaving the store unchanged. -/
def PaymentsPage.pay (db : DB) (paymentId : String) (now : Nat) : DB :=
  match db.payments.find? (fun p => p.id = paymentId) with
  | none => db
  | some _ => { db with payments := payMark db.payments paymentId now }

/-- Embeds the payment-visibility filter of `PaymentsPage`
(lines 455-460): keep a payment only if its task resolves
(`if (!t) return false`), and, for a student, only if
`t.studentId === user.id`; any non-student (i.e. a tutor) passes every
payment whose task resolves. -/
def PaymentsPage.listPayments (db : DB) (user : Principal) : List Payment :=
  db.payments.filter (fun p =>
    match db.tasks.find? (fun t => t.id = p.taskId) with
    | none => false
    | some t =>
      match user.role with
      | Role.student => t.studentId = user.id
      | Role.tutor => true)

/-- One mutating operation of the prototype, for stating store-wide
invariants over arbitrary operation sequences. -/
inductive Op where
  | post (user : Option Principal)
      (title description dueDate budget : String) (now : Nat)
  | bid (user : Option Principal) (taskId : String) (amount : Int)
      (message : String) (now : Nat)
  | acc (taskId : String) (b : Bid) (now : Nat)
  | settle (paymentId : String) (now : Nat)

/-- Apply one operation to the store. -/
def applyOp (db : DB) : Op → DB
  | Op.post u t d dd b n => (PostTaskCard.submit db u t d dd b n).1
  | Op.bid u tid a m n => (BidForm.submitBid db u tid a m n).1
  | Op.acc tid b n => AcceptBidUI.accept db tid b n
  | Op.settle pid n => PaymentsPage.pay db pid n

/-! Concrete sample data (the spec's §8 scenario, run through the model) -/

/-- The student S of the scenario. -/
def studentU : Principal := { id := "u_1", name := "Stu", role := Role.student }

/-- Tutor A of the scenario. -/
def tutorU : Principal := { id := "u_2", name := "Tut", role := Role.tutor }

/-- Tutor B of the scenario. -/
def tutorU2 : Principal := { id := "u_3", name := "Tua", role := Role.tutor }

/-- Store after the student posts one task at time 1. -/
def db1 : DB :=
  (PostTaskCard.submit emptyDB (some studentU)
    "Essay help" "5 pages" "2026-01-01" "500" 1).1

/-- The task the post at time 1 creates. -/
def taskW : Task :=
  { id := "t_1", title := "Essay help", description := "5 pages",
    studentId := "u_1", studentName := "Stu", dueDate := "2026-01-01",
    budget := "500" }

/-- Tutor A's bid, submitted at time 2. -/
def bidA : Bid :=
  { id := "b_2", taskId := "t_1", tutorId := "u_2", tutorName := "Tut",
    amount := 400, message := "can do", createdAt := 2 }

/-- Tutor B's bid, submitted at time 3. -/
def bidB : Bid :=
  { id := "b_3", taskId := "t_1", tutorId := "u_3", tutorName := "Tua",
    amount := 450, message := "asap", createdAt := 3 }

/-- Store after both tutors bid (times 2 and 3). -/
def db2 : DB :=
  (BidForm.submitBid
    (BidForm.submitBid db1 (some tutorU) "t_1" 400 "can do" 2).1
    (some tutorU2) "t_1" 450 "asap" 3).1

/-- Store after the student accepts tutor A's bid at time 6
(payment `p_6` is created). -/
def db3 : DB := AcceptBidUI.accept db2 "t_1" bidA 6

/-- Store after a second accept call on the same task, now with tutor B's
bid, at time 7. -/
def db4 : DB := AcceptBidUI.accept db3 "t_1" bidB 7

/-- Store after paying payment `p_6` at time 10. -/
def dbPaid : DB := PaymentsPage.pay db3 "p_6" 10

/-- A store holding one payment whose `taskId` resolves to no task.  The
store is plain localStorage content (line 51); the filter at line 458
guards exactly this shape with `if (!t) return false`. -/
def dbDangling : DB :=
  { users := [], tasks := [], bids := [],
    payments := [{ id := "p_99", taskId := "t_404", amount := 100,
                   studentPaid := false, createdAt := 99 }] }

/-- Store after two tasks are posted in the same millisecond
(`Date.now()` returns 5 for both). -/
def dbDup : DB :=
  (PostTaskCard.submit
    (PostTaskCard.submit emptyDB (some studentU) "A" "a" "" "" 5).1
    (some studentU) "B" "b" "" "" 5).1

/-- The first same-millisecond task. -/
def taskA5 : Task :=
  { id := "t_5", title := "A", description := "a", studentId := "u_1",
    studentName := "Stu", dueDate := "", budget := "" }

/-- The second same-millisecond task: a different task with the same id. -/
def taskB5 : Task :=
  { id := "t_5", title := "B", description := "b", studentId := "u_1",
    studentName := "Stu", dueDate := "", budget := "" }

/-- The payment that `AcceptBidUI.accept` pushes at time `now`
(line 382). -/
def acceptPayment (taskId : String) (bid : Bid) (now : Nat) : Payment :=
  { id := "p_" ++ Nat.repr now, taskId := taskId, amount := bid.amount,
    studentPaid := false, createdAt := now }

/-- The payment created when `bidA` is accepted at time 6. -/
def pmt6 : Payment :=
  { id := "p_6", taskId := "t_1", amount := 400, studentPaid := false,
    createdAt := 6 }

/-- A negative-amount bid submitted by tutor A at time 9: the form does
no validation, so it is persisted as-is. -/
def bidN : Bid :=
  { id := "b_9", taskId := "t_1", tutorId := "u_2", tutorName := "Tut",
    amount := -5, message := "neg", createdAt := 9 }

/-! Decimal rendering is injective

The prototype's ids are `'t_' + Date.now()`, `'b_' + Date.now()`,
`'p_' + Date.now()`; the JS number-to-string conversion is the decimal
rendering, i.e. `Nat.repr`.  Distinct timestamps give distinct id strings
because `Nat.repr` is injective; we prove that here since it underpins
the only uniqueness the id scheme offers. -/

/-- Numeric value of a decimal digit character. -/
def digitVal (c : Char) : Nat := c.toNat - '0'.toNat

/-- Base-10 value of a big-endian digit-character list. -/
def ofDigits (l : List Char) : Nat :=
  l.foldl (fun a c => a * 10 + digitVal c) 0

theorem digitVal_digitChar : ∀ r, r < 10 → digitVal (Nat.digitChar r) = r := by
  decide

theorem toDigitsCore_append (fuel : Nat) :
    ∀ (n : Nat) (ds : List Char),
      Nat.toDigitsCore 10 fuel n ds = Nat.toDigitsCore 10 fuel n [] ++ ds := by
  induction fuel with
  | zero => intro n ds; simp [Nat.toDigitsCore]
  | succ fuel ih =>
    intro n ds
    simp only [Nat.toDigitsCore]
    by_cases h : n / 10 = 0
    · simp [h]
    · simp only [h, if_false]
      rw [ih (n / 10) (Nat.digitChar (n % 10) :: ds),
        ih (n / 10) [Nat.digitChar (n % 10)], List.append_assoc]
      rfl

theorem ofDigits_toDigitsCore (fuel : Nat) :
    ∀ n : Nat, n < fuel → ofDigits (Nat.toDigitsCore 10 fuel n []) = n := by
  induction fuel with
  | zero => intro n h; exact absurd h (Nat.not_lt_zero n)
  | succ fuel ih =>
    intro n h
    simp only [Nat.toDigitsCore]
    by_cases h0 : n / 10 = 0
    · simp only [h0, if_true]
      have hm : n % 10 < 10 := Nat.mod_lt _ (by decide)
      have : ofDigits [Nat.digitChar (n % 10)] = n % 10 := by
        simp [ofDigits, digitVal_digitChar _ hm]
      rw [this]
      conv_rhs => rw [← Nat.div_add_mod n 10]
      rw [h0]
      simp
    · simp only [h0, if_false]
      rw [toDigitsCore_append]
      have hpos : 0 < n := by
        rcases Nat.eq_zero_or_pos n with h1 | h1
        · exact absurd (by simp [h1]) h0
        · exact h1
      have hlt : n / 10 < fuel := by
        have : n / 10 < n := Nat.div_lt_self hpos (by decide)
        omega
      have hm : n % 10 < 10 := Nat.mod_lt _ (by decide)
      have : ofDigits (Nat.toDigitsCore 10 fuel (n / 10) [] ++
          [Nat.digitChar (n % 10)]) =
          ofDigits (Nat.toDigitsCore 10 fuel (n / 10) []) * 10 +
            digitVal (Nat.digitChar (n % 10)) := by
        simp [ofDigits, List.foldl_append]
      rw [this, ih _ hlt, digitVal_digitChar _ hm]
      conv_rhs => rw [← Nat.div_add_mod n 10]
      ring

theorem repr_injective {m n : Nat} (h : Nat.repr m = Nat.repr n) : m = n := by
  have hl : Nat.toDigitsCore 10 (m + 1) m [] =
      Nat.toDigitsCore 10 (n + 1) n [] := by
    have := congrArg String.data h
    simpa [Nat.repr, Nat.toDigits, List.asString] using this
  have hm := ofDigits_toDigitsCore (m + 1) m (Nat.lt_succ_self m)
  rw [hl, ofDigits_toDigitsCore (n + 1) n (Nat.lt_succ_self n)] at hm
  exact hm.symm

theorem prefixed_repr_injective (s : String) {m n : Nat}
    (h : s ++ Nat.repr m = s ++ Nat.repr n) : m = n := by
  apply repr_injective
  have h2 := congrArg String.data h
  simp only [String.data_append] at h2
  exact String.ext (List.append_cancel_left h2)

/-! Helper lemmas about the update functions -/

theorem acceptSetBid_cons_pos (t : Task) (ts : List Task) (tid : String)
    (b : Bid) (h : t.id = tid) :
    acceptSetBid (t :: ts) tid b = { t with acceptedBid := some b } :: ts := by
  simp [acceptSetBid, h]

theorem acceptSetBid_cons_neg (t : Task) (ts : List Task) (tid : String)
    (b : Bid) (h : ¬t.id = tid) :
    acceptSetBid (t :: ts) tid b = t :: acceptSetBid ts tid b := by
  simp [acceptSetBid, h]

theorem find?_acceptSetBid (tid : String) (b : Bid) :
    ∀ (ts : List Task) (t0 : Task),
      ts.find? (fun t => t.id = tid) = some t0 →
      (acceptSetBid ts tid b).find? (fun t => t.id = tid) =
        some { t0 with acceptedBid := some b } := by
  intro ts
  induction ts with
  | nil => intro t0 h; simp [List.find?] at h
  | cons t ts ih =>
    intro t0 h
    by_cases ht : t.id = tid
    · rw [List.find?_cons_of_pos _ (by simp [ht])] at h
      cases h
      rw [acceptSetBid_cons_pos t ts tid b ht,
        List.find?_cons_of_pos _ (by simp [ht])]
    · rw [List.find?_cons_of_neg _ (by simp [ht])] at h
      rw [acceptSetBid_cons_neg t ts tid b ht,
        List.find?_cons_of_neg _ (by simp [ht])]
      exact ih t0 h

theorem accept_found (db : DB) (tid : String) (b : Bid) (now : Nat)
    (t0 : Task) (h : db.tasks.find? (fun t => t.id = tid) = some t0) :
    AcceptBidUI.accept db tid b now =
      { db with
        tasks := acceptSetBid db.tasks tid b,
        payments := db.payments ++ [acceptPayment tid b now] } := by
  unfold AcceptBidUI.accept
  rw [h]
  rfl

theorem accept_not_found (db : DB) (tid : String) (b : Bid) (now : Nat)
    (h : db.tasks.find? (fun t => t.id = tid) = none) :
    AcceptBidUI.accept db tid b now = db := by
  unfold AcceptBidUI.accept
  rw [h]

theorem pay_found (db : DB) (pid : String) (now : Nat) (p : Payment)
    (h : db.payments.find? (fun x => x.id = pid) = some p) :
    PaymentsPage.pay db pid now =
      { db with payments := payMark db.payments pid now } := by
  unfold PaymentsPage.pay
  rw [h]

theorem pay_not_found (db : DB) (pid : String) (now : Nat)
    (h : db.payments.find? (fun x => x.id = pid) = none) :
    PaymentsPage.pay db pid now = db := by
  unfold PaymentsPage.pay
  rw [h]

theorem payMark_length (pid : String) (now : Nat) :
    ∀ ps : List Payment, (payMark ps pid now).length = ps.length := by
  intro ps
  induction ps with
  | nil => rfl
  | cons p ps ih =>
    by_cases h : p.id = pid
    · simp [payMark, h]
    · simp [payMark, h, ih]

theorem payMark_cons_pos (p : Payment) (ps : List Payment) (pid : String)
    (now : Nat) (h : p.id = pid) :
    payMark (p :: ps) pid now =
      { p with studentPaid := true, paidAt := some now } :: ps := by
  simp [payMark, h]

theorem payMark_cons_neg (p : Payment) (ps : List Payment) (pid : String)
    (now : Nat) (h : ¬p.id = pid) :
    payMark (p :: ps) pid now = p :: payMark ps pid now := by
  simp [payMark, h]

theorem payMark_get_paid (pid : String) (now : Nat) :
    ∀ (ps : List Payment) (i : Nat) (h : i < ps.length)
      (h2 : i < (payMark ps pid now).length),
      (ps.get ⟨i, h⟩).studentPaid = true →
      ((payMark ps pid now).get ⟨i, h2⟩).studentPaid = true := by
  intro ps
  induction ps with
  | nil => intro i h; exact absurd h (by simp)
  | cons p ps ih =>
    intro i h h2 hp
    by_cases hid : p.id = pid
    · revert h2
      rw [payMark_cons_pos p ps pid now hid]
      intro h2
      cases i with
      | zero => rfl
      | succ j => exact hp
    · revert h2
      rw [payMark_cons_neg p ps pid now hid]
      intro h2
      cases i with
      | zero => exact hp
      | succ j =>
        exact ih j (Nat.lt_of_succ_lt_succ h) (Nat.lt_of_succ_lt_succ h2) hp

theorem find?_payMark (pid : String) (now : Nat) :
    ∀ (ps : List Payment) (p : Payment),
      ps.find? (fun x => x.id = pid) = some p →
      (payMark ps pid now).find? (fun x => x.id = pid) =
        some { p with studentPaid := true, paidAt := some now } := by
  intro ps
  induction ps with
  | nil => intro p h; simp [List.find?] at h
  | cons q ps ih =>
    intro p h
    by_cases hq : q.id = pid
    · rw [List.find?_cons_of_pos _ (by simp [hq])] at h
      cases h
      rw [payMark_cons_pos q ps pid now hq,
        List.find?_cons_of_pos _ (by simp [hq])]
    · rw [List.find?_cons_of_neg _ (by simp [hq])] at h
      rw [payMark_cons_neg q ps pid now hq,
        List.find?_cons_of_neg _ (by simp [hq])]
      exact ih p h

theorem submit_task_payments (db : DB) (u : Option Principal)
    (t d dd b : String) (n : Nat) :
    ((PostTaskCard.submit db u t d dd b n).1).payments = db.payments := by
  cases u with
  | none => rfl
  | some u =>
    unfold PostTaskCard.submit
    by_cases h : u.role = Role.student <;> simp [h]

theorem submit_bid_payments (db : DB) (u : Option Principal)
    (tid : String) (a : Int) (m : String) (n : Nat) :
    ((BidForm.submitBid db u tid a m n).1).payments = db.payments := by
  cases u with
  | none => rfl
  | some u => rfl

/-- A task's `id` string determines the `Date.now()` value it was posted
at: `PostTaskCard.submit` returns `some t` only with
`t.id = "t_" ++ Nat.repr now`. -/
theorem submit_task_id (db : DB) (u : Option Principal)
    (ti d dd b : String) (n : Nat) (t : Task)
    (h : (PostTaskCard.submit db u ti d dd b n).2 = some t) :
    t.id = "t_" ++ Nat.repr n := by
  cases u with
  | none => simp [PostTaskCard.submit] at h
  | some u =>
    unfold PostTaskCard.submit at h
    by_cases hr : u.role = Role.student
    · simp only [hr, if_true] at h
      cases h
      rfl
    · simp [hr] at h

/-- A bid's `id` string determines the `Date.now()` value it was
submitted at. -/
theorem submit_bid_id (db : DB) (u : Option Principal) (tid : String)
    (a : Int) (m : String) (n : Nat) (b : Bid)
    (h : (BidForm.submitBid db u tid a m n).2 = some b) :
    b.id = "b_" ++ Nat.repr n := by
  cases u with
  | none => simp [BidForm.submitBid] at h
  | some u =>
    unfold BidForm.submitBid at h
    cases h
    rfl

/-! The claims -/

/-- C1: the claim "for every task, at most one Payment record exists with
`payment.taskId == T.id`, regardless of how many times acceptBid is
invoked" is FALSE of the code: `AcceptBidUI.accept` (lines 377-385)
pushes a fresh payment on every invocation and never checks whether the
task already has an accepted bid — the accept control is even still
rendered after acceptance (line 329).  In the scenario store `db4`, where
accept was invoked twice on task `t_1`, two payments carry
`taskId = "t_1"`. -/
theorem C1_double_accept_two_payments :
    (db4.payments.filter (fun p => p.taskId = "t_1")).length = 2 := by rfl

/-- C2: the claim "once acceptedBidId is set, a further acceptBid call
fails with AlreadyAccepted, leaves it unchanged and creates no second
Payment" is FALSE of the code: the second accept call on `t_1` (store
`db4`) succeeds, overwrites the accepted bid from `bidA` to `bidB`, and
appends a second payment. -/
theorem C2_reaccept_succeeds :
    (db3.tasks.find? (fun t => t.id = "t_1")).map Task.acceptedBidId =
      some (some "b_2")
    ∧ (db4.tasks.find? (fun t => t.id = "t_1")).map Task.acceptedBidId =
      some (some "b_3")
    ∧ db3.payments.length = 1
    ∧ db4.payments.length = 2 :=
  ⟨rfl, rfl, rfl, rfl⟩

/-- C3: a successful accept (the task id resolves) stores the accepted
bid on the task — so `acceptedBidId` becomes the accepted bid's id — and
appends exactly one new payment with that `taskId`, `amount` equal to the
accepted bid's amount at that instant, and `paid = false`.  Both effects
are two fields of the one store written by the single `saveDB` call at
line 383, so neither is visible without the other. -/
theorem C3_accept_atomic (db : DB) (tid : String) (b : Bid) (now : Nat)
    (t0 : Task) (h : db.tasks.find? (fun t => t.id = tid) = some t0) :
    ((AcceptBidUI.accept db tid b now).tasks.find? (fun t => t.id = tid) =
      some { t0 with acceptedBid := some b })
    ∧ (((AcceptBidUI.accept db tid b now).tasks.find?
        (fun t => t.id = tid)).map Task.acceptedBidId = some (some b.id))
    ∧ ∃ p : Payment,
        (AcceptBidUI.accept db tid b now).payments = db.payments ++ [p]
        ∧ p.taskId = tid ∧ p.amount = b.amount ∧ p.studentPaid = false := by
  rw [accept_found db tid b now t0 h]
  have hf := find?_acceptSetBid tid b db.tasks t0 h
  refine ⟨hf, ?_, acceptPayment tid b now, rfl, rfl, rfl, rfl⟩
  rw [show ({ db with
      tasks := acceptSetBid db.tasks tid b,
      payments := db.payments ++ [acceptPayment tid b now] } : DB).tasks =
    acceptSetBid db.tasks tid b from rfl, hf]
  rfl

/-- Witness for C3 on the scenario store: accepting `bidA` on `t_1` in
`db2` at time 6. -/
theorem C3_accept_atomic_witness :
    ((AcceptBidUI.accept db2 "t_1" bidA 6).tasks.find?
        (fun t => t.id = "t_1") = some { taskW with acceptedBid := some bidA })
    ∧ (((AcceptBidUI.accept db2 "t_1" bidA 6).tasks.find?
        (fun t => t.id = "t_1")).map Task.acceptedBidId =
          some (some bidA.id))
    ∧ ∃ p : Payment,
        (AcceptBidUI.accept db2 "t_1" bidA 6).payments = db2.payments ++ [p]
        ∧ p.taskId = "t_1" ∧ p.amount = bidA.amount
        ∧ p.studentPaid = false :=
  C3_accept_atomic db2 "t_1" bidA 6 taskW (by decide)

/-- C4: the claim "submitBid fails with Unauthorized for every principal
whose role is not tutor, and persists no Bid" is FALSE of the
`submitBid` function: its only guard is `if (!user)` (line 355), so a
logged-in STUDENT calling it persists a bid and gets the success alert.
Role gating exists solely in the render guard of line 328. -/
theorem C4_student_bid_persisted :
    (BidForm.submitBid db1 (some studentU) "t_1" 300 "i will do it" 8).2 =
      some { id := "b_8", taskId := "t_1", tutorId := "u_1",
             tutorName := "Stu", amount := 300, message := "i will do it",
             createdAt := 8 }
    ∧ ((BidForm.submitBid db1 (some studentU) "t_1" 300
        "i will do it" 8).1).bids.length = 1 :=
  ⟨rfl, rfl⟩

/-- C4 (amended): `submitBid` rejects a call, persisting nothing, only
when no principal is logged in; any authenticated principal — student
included — gets the bid persisted.  The tutor-only gating lives in the UI
render guard (`bidFormRendered`), which mounts the bid form exactly for
logged-in tutors. -/
theorem C4_submitBid_login_only :
    (∀ (db : DB) (tid : String) (a : Int) (m : String) (n : Nat),
      BidForm.submitBid db none tid a m n = (db, none))
    ∧ (∀ (db : DB) (u : Principal) (tid : String) (a : Int) (m : String)
        (n : Nat), ∃ b : Bid,
        BidForm.submitBid db (some u) tid a m n =
          ({ db with bids := db.bids ++ [b] }, some b)
        ∧ b.tutorId = u.id ∧ b.amount = a)
    ∧ (∀ u : Principal,
        TaskCard.bidFormRendered (some u) = true ↔ u.role = Role.tutor) := by
  refine ⟨fun db tid a m n => rfl,
    fun db u tid a m n => ⟨_, rfl, rfl, rfl⟩, fun u => ?_⟩
  rcases u with ⟨i, nm, r⟩
  cases r <;> simp [TaskCard.bidFormRendered]

/-- C5: the claim "a submitBid call with amount < 0 fails with
InvalidAmount and persists no Bid" is FALSE of the code: there is no
amount check anywhere in `submitBid` (lines 354-361); a bid of amount -5
is persisted verbatim. -/
theorem C5_negative_bid_persisted :
    ((BidForm.submitBid db1 (some tutorU) "t_1" (-5) "neg" 9).1).bids =
      [bidN]
    ∧ (BidForm.submitBid db1 (some tutorU) "t_1" (-5) "neg" 9).2 =
      some bidN :=
  ⟨rfl, rfl⟩

/-- C5 (amended): `submitBid` performs no amount validation: a call with a
negative amount by any authenticated principal succeeds and persists a
Bid carrying that negative amount. -/
theorem C5_no_amount_validation (db : DB) (u : Principal) (tid : String)
    (a : Int) (m : String) (n : Nat) (_h : a < 0) :
    ∃ b : Bid, BidForm.submitBid db (some u) tid a m n =
      ({ db with bids := db.bids ++ [b] }, some b) ∧ b.amount = a :=
  ⟨_, rfl, rfl⟩

/-- Witness for C5 (amended) at amount -5. -/
theorem C5_no_amount_validation_witness :
    (-5 : Int) < 0 ∧ ∃ b : Bid,
      BidForm.submitBid db1 (some tutorU) "t_1" (-5) "neg" 9 =
        ({ db1 with bids := db1.bids ++ [b] }, some b) ∧ b.amount = -5 :=
  ⟨by decide, C5_no_amount_validation db1 tutorU "t_1" (-5) "neg" 9 (by decide)⟩

/-- C6: `pay` only ever writes `studentPaid = true` (line 466) and no
other operation touches an existing payment's flag — payments are only
appended by accept — so once a payment's `paid` flag is true it stays
true across every operation (first conjunct, by position in the payments
list).  A `pay` call whose payment id resolves marks it paid and records
`paidAt = now` (second conjunct). -/
theorem C6_paid_one_way :
    (∀ (db : DB) (op : Op) (i : Nat) (h : i < db.payments.length)
      (h2 : i < (applyOp db op).payments.length),
      (db.payments.get ⟨i, h⟩).studentPaid = true →
      ((applyOp db op).payments.get ⟨i, h2⟩).studentPaid = true)
    ∧ (∀ (db : DB) (pid : String) (now : Nat) (p : Payment),
      db.payments.find? (fun x => x.id = pid) = some p →
      (PaymentsPage.pay db pid now).payments.find? (fun x => x.id = pid) =
        some { p with studentPaid := true, paidAt := some now }) := by
  constructor
  · intro db op i h h2 hp
    cases op with
    | post u t d dd b n =>
      revert h2
      simp only [applyOp]
      rw [submit_task_payments]
      intro h2
      exact hp
    | bid u tid a m n =>
      revert h2
      simp only [applyOp]
      rw [submit_bid_payments]
      intro h2
      exact hp
    | acc tid b n =>
      revert h2
      simp only [applyOp]
      cases hf : db.tasks.find? (fun t => t.id = tid) with
      | none =>
        rw [accept_not_found db tid b n hf]
        intro h2
        exact hp
      | some t0 =>
        rw [accept_found db tid b n t0 hf]
        intro h2
        rw [List.get_eq_getElem, List.getElem_append_left h]
        rw [List.get_eq_getElem] at hp
        exact hp
    | settle pid n =>
      revert h2
      simp only [applyOp]
      cases hf : db.payments.find? (fun x => x.id = pid) with
      | none =>
        rw [pay_not_found db pid n hf]
        intro h2
        exact hp
      | some p =>
        rw [pay_found db pid n p hf]
        intro h2
        exact payMark_get_paid pid n db.payments i h h2 hp
  · intro db pid now p hf
    rw [pay_found db pid now p hf]
    exact find?_payMark pid now db.payments p hf

/-- Witness for C6: re-settling the already paid `p_6` keeps it paid, and
paying `p_6` in `db3` marks it with `paidAt = 10`. -/
theorem C6_paid_one_way_witness :
    ((applyOp dbPaid (Op.settle "p_6" 20)).payments.get
      ⟨0, by decide⟩).studentPaid = true
    ∧ (PaymentsPage.pay db3 "p_6" 10).payments.find?
        (fun x => x.id = "p_6") =
      some { pmt6 with studentPaid := true, paidAt := some 10 } :=
  ⟨C6_paid_one_way.1 dbPaid (Op.settle "p_6" 20) 0 (by decide) (by decide)
    (by decide),
   C6_paid_one_way.2 db3 "p_6" 10 pmt6 (by decide)⟩

/-- C7: the claim "markPaid on an already-paid payment fails with
AlreadyPaid and leaves the record, including paidAt, unchanged" is FALSE
of the code: `pay` has no already-paid check (lines 462-469); re-marking
`p_6` (paid at 10) at time 20 silently succeeds and overwrites `paidAt`
to 20.  (§9 of the spec itself flags this prototype behavior.) -/
theorem C7_repay_overwrites_paidAt :
    dbPaid.payments.find? (fun x => x.id = "p_6") =
      some { pmt6 with studentPaid := true, paidAt := some 10 }
    ∧ (PaymentsPage.pay dbPaid "p_6" 20).payments.find?
        (fun x => x.id = "p_6") =
      some { pmt6 with studentPaid := true, paidAt := some 20 } :=
  ⟨rfl, rfl⟩

/-- C7 (amended): `pay` on an already-paid payment silently succeeds
again: the payment stays paid and its `paidAt` is overwritten with the
new time. -/
theorem C7_repay_silent (db : DB) (pid : String) (now : Nat) (p : Payment)
    (hf : db.payments.find? (fun x => x.id = pid) = some p)
    (_hp : p.studentPaid = true) :
    (PaymentsPage.pay db pid now).payments.find? (fun x => x.id = pid) =
      some { p with studentPaid := true, paidAt := some now } := by
  rw [pay_found db pid now p hf]
  exact find?_payMark pid now db.payments p hf

/-- Witness for C7 (amended): re-paying `p_6` at time 20. -/
theorem C7_repay_silent_witness :
    dbPaid.payments.find? (fun x => x.id = "p_6") =
      some { pmt6 with studentPaid := true, paidAt := some 10 }
    ∧ ({ pmt6 with studentPaid := true, paidAt := some 10 } :
        Payment).studentPaid = true
    ∧ (PaymentsPage.pay dbPaid "p_6" 20).payments.find?
        (fun x => x.id = "p_6") =
      some { pmt6 with studentPaid := true, paidAt := some 20 } :=
  ⟨by decide, by decide,
   C7_repay_silent dbPaid "p_6" 20
     { pmt6 with studentPaid := true, paidAt := some 10 }
     (by decide) (by decide)⟩

/-- C8: the claim "for a tutor, listPayments returns all payments" is
FALSE of the code: the filter (line 458) drops any payment whose task id
does not resolve, for tutors too.  In `dbDangling` the tutor sees none of
the one stored payment. -/
theorem C8_tutor_misses_dangling :
    PaymentsPage.listPayments dbDangling tutorU = []
    ∧ dbDangling.payments.length = 1 :=
  ⟨rfl, rfl⟩

/-- C8 (amended): a payment is visible iff it is stored, its task id
resolves, and — when the caller is a student — the task is owned by the
caller; a tutor sees every payment whose task id resolves. -/
theorem C8_listPayments_visibility (db : DB) (u : Principal)
    (p : Payment) :
    p ∈ PaymentsPage.listPayments db u ↔
      p ∈ db.payments ∧ ∃ t : Task,
        db.tasks.find? (fun x => x.id = p.taskId) = some t ∧
        (u.role = Role.student → t.studentId = u.id) := by
  unfold PaymentsPage.listPayments
  rw [List.mem_filter]
  cases hf : db.tasks.find? (fun x => x.id = p.taskId) with
  | none => simp [hf]
  | some t =>
    rcases u with ⟨ui, un, ur⟩
    cases ur with
    | student => simp [hf]
    | tutor => simp [hf]

/-- C9: the claim "entity ids are unique over any operation sequence" is
FALSE of the code: ids are `'t_' + Date.now()` / `'b_' + Date.now()`
(lines 409, 357), so two tasks posted in the same millisecond collide.
In `dbDup` two distinct tasks share the id `"t_5"`. -/
theorem C9_same_millisecond_collision :
    dbDup.tasks = [taskA5, taskB5]
    ∧ taskA5 ≠ taskB5
    ∧ taskA5.id = taskB5.id :=
  ⟨rfl, by decide, rfl⟩

/-- C9 (amended): ids are unique exactly up to the creation timestamp:
two tasks (resp. bids) created at distinct `Date.now()` values have
distinct ids, the timestamp being the only varying part of the id
string. -/
theorem C9_ids_unique_per_timestamp :
    (∀ (dbx dby : DB) (ux uy : Option Principal)
      (t1 d1 dd1 b1 t2 d2 dd2 b2 : String) (n1 n2 : Nat) (ta tb : Task),
      n1 ≠ n2 →
      (PostTaskCard.submit dbx ux t1 d1 dd1 b1 n1).2 = some ta →
      (PostTaskCard.submit dby uy t2 d2 dd2 b2 n2).2 = some tb →
      ta.id ≠ tb.id)
    ∧ (∀ (dbx dby : DB) (ux uy : Option Principal)
      (tid1 tid2 : String) (a1 a2 : Int) (m1 m2 : String) (n1 n2 : Nat)
      (ba bb : Bid),
      n1 ≠ n2 →
      (BidForm.submitBid dbx ux tid1 a1 m1 n1).2 = some ba →
      (BidForm.submitBid dby uy tid2 a2 m2 n2).2 = some bb →
      ba.id ≠ bb.id) := by
  constructor
  · intro dbx dby ux uy t1 d1 dd1 b1 t2 d2 dd2 b2 n1 n2 ta tb hne ha hb hid
    rw [submit_task_id _ _ _ _ _ _ _ _ ha,
      submit_task_id _ _ _ _ _ _ _ _ hb] at hid
    exact hne (prefixed_repr_injective "t_" hid)
  · intro dbx dby ux uy tid1 tid2 a1 a2 m1 m2 n1 n2 ba bb hne ha hb hid
    rw [submit_bid_id _ _ _ _ _ _ _ ha,
      submit_bid_id _ _ _ _ _ _ _ hb] at hid
    exact hne (prefixed_repr_injective "b_" hid)

/-- Witness for C9 (amended): the scenario task and bid ids at distinct
timestamps differ. -/
theorem C9_ids_unique_per_timestamp_witness :
    ((1 : Nat) ≠ 5 ∧ taskW.id ≠ taskA5.id)
    ∧ ((2 : Nat) ≠ 9 ∧ bidA.id ≠ bidN.id) :=
  ⟨⟨by decide,
    C9_ids_unique_per_timestamp.1 emptyDB emptyDB (some studentU)
      (some studentU) "Essay help" "5 pages" "2026-01-01" "500"
      "A" "a" "" "" 1 5 taskW taskA5 (by decide) rfl rfl⟩,
   ⟨by decide,
    C9_ids_unique_per_timestamp.2 db1 db1 (some tutorU) (some tutorU)
      "t_1" "t_1" 400 (-5) "can do" "neg" 2 9 bidA bidN
      (by decide) rfl rfl⟩⟩

/-- C10: every payment returned by the visibility filter has a resolving
task id — `if (!t) return false` (line 458) runs before any role check,
so a dangling payment is invisible to every caller, student or tutor. -/
theorem C10_dangling_invisible (db : DB) (u : Principal) :
    ((PaymentsPage.listPayments db u).all
      (fun p => (db.tasks.find? (fun t => t.id = p.taskId)).isSome)) =
      true := by
  rw [List.all_eq_true]
  intro p hp
  unfold PaymentsPage.listPayments at hp
  rw [List.mem_filter] at hp
  rcases hp with ⟨-, hpred⟩
  cases hf : db.tasks.find? (fun t => t.id = p.taskId) with
  | none => rw [hf] at hpred; simp at hpred
  | some t => rfl

end Writely
